import Mathlib

/-!
# Verification of the ArcticPollutionMonitor core against its specification

Shallow embedding of the repository's patrol/scan scheduling engine and
detection pipeline:

* `src/components/MonitorPage.tsx` (second, patrol-engine revision): the
  patrol step (`runSimulationStep`'s position updater), the scan scheduler
  (tick / analysis guard / stop / start), the facet filter
  (`filteredPollutionData`, `handleFilterChange`, `getConfidenceLevel`) and
  the merge of classification results (`analyzePosition`).
* `src/services/geminiService.ts`: the retrying classification adapter
  (`analyzeImage`).
* `src/services/mockPollutionService.ts`: the synthetic detection generator
  (`generateMockPollutionData`, `generatePolygon`, `isPointInPolygon`,
  `isLand`).

JavaScript numbers are modelled as `ℚ`; the JS remainder operator `%`
(truncated division) is modelled by `jsMod`.  `Math.random()` draws are
passed in as explicit parameters (`ℚ` values in `[0,1)`), and the
transcendental functions `Math.cos`/`Math.sin`/`Math.PI` — which feed only
cosmetic coordinates or an opaque step count — are passed in as abstract
parameters where they occur.  String-typed enumerations of the source
(`'Нефтяное'`, `'Высокий'`, …) are kept as `String` values.
-/

namespace ArcticMonitor

/-- JS truncation toward zero of a rational, as used by the JS `%` operator. -/
def ratTrunc (q : ℚ) : ℤ :=
  if 0 ≤ q then ⌊q⌋ else ⌈q⌉

/-- The JavaScript remainder operator `a % b` (truncated division). -/
def jsMod (a b : ℚ) : ℚ :=
  a - b * (ratTrunc (a / b) : ℚ)

/-- The longitude/delta normalization `((x + 180) % 360 + 360) % 360 - 180`
    used in `runSimulationStep` (MonitorPage.tsx). -/
def jsNorm (x : ℚ) : ℚ :=
  jsMod (jsMod (x + 180) 360 + 360) 360 - 180

/-! ## Data model (`src/types.ts`) -/

/-- `GeoJSONGeometry` of `types.ts`: the `type` field is the constant
    `'Polygon'` and is never inspected by the core logic, so only the
    `coordinates : number[][][]` field is modelled.  Inner 2-element lists
    are `[lng, lat]` pairs. -/
structure GeoJSONGeometry where
  coordinates : List (List (List ℚ))
  deriving DecidableEq, Repr

/-- `PollutionData` of `types.ts`.  The string-literal union fields keep
    their source `String` values ('Химическое' | 'Нефтяное' | 'Физическое',
    'Вода' | 'Почва', 'Низкий' | 'Средний' | 'Высокий'). -/
structure PollutionData where
  ptype : String
  confidence : ℚ
  geometry : GeoJSONGeometry
  timestamp : ℕ
  impactArea : String
  hazardLevel : String
  deriving DecidableEq, Repr

/-- `Filters` of the patrol-engine `MonitorPage.tsx`: four facets, each a
    list of still-string-typed values; an empty facet is "no constraint". -/
structure Filters where
  ftype : List String
  hazardLevel : List String
  impactArea : List String
  confidence : List String
  deriving DecidableEq, Repr

/-- The four facet names of `Filters` (`keyof Filters`). -/
inductive FilterCategory where
  | ftype | hazardLevel | impactArea | confidence
  deriving DecidableEq, Repr

/-! ## Filtering (`MonitorPage.tsx` lines 297–313) -/

/-- `getConfidenceLevel` (MonitorPage.tsx lines 297–301):
    `value < 0.75 → 'Низкая'`, `value ≤ 0.9 → 'Средняя'`, else `'Высокая'`. -/
def getConfidenceLevel (value : ℚ) : String :=
  if value < 3/4 then "Низкая"
  else if value ≤ 9/10 then "Средняя"
  else "Высокая"

/-- The per-detection predicate of `filteredPollutionData`
    (MonitorPage.tsx lines 306–312): for each facet, empty or membership. -/
def passesFilters (f : Filters) (p : PollutionData) : Bool :=
  (f.ftype.length = 0 || f.ftype.contains p.ptype) &&
  (f.hazardLevel.length = 0 || f.hazardLevel.contains p.hazardLevel) &&
  (f.impactArea.length = 0 || f.impactArea.contains p.impactArea) &&
  (f.confidence.length = 0 || f.confidence.contains (getConfidenceLevel p.confidence))

/-- `filteredPollutionData` (MonitorPage.tsx lines 303–313): if no facet is
    active, the data is returned unfiltered; otherwise the conjunction of
    the four facet checks is applied. -/
def filteredPollutionData (f : Filters) (data : List PollutionData) : List PollutionData :=
  let active := f.ftype.length > 0 || f.hazardLevel.length > 0 ||
                f.impactArea.length > 0 || f.confidence.length > 0
  if !active then data
  else data.filter (fun p => passesFilters f p)

/-- The `toggle` helper of `handleFilterChange` (MonitorPage.tsx lines
    276–277): remove the value if present, append it otherwise. -/
def toggleValue (arr : List String) (val : String) : List String :=
  if arr.contains val then arr.filter (fun v => v ≠ val) else arr ++ [val]

/-- `handleFilterChange` (MonitorPage.tsx lines 273–290): toggles `value`
    within the facet named by `category`, leaving the other facets as they
    were. -/
def handleFilterChange (f : Filters) (category : FilterCategory) (value : String) : Filters :=
  match category with
  | .ftype => { f with ftype := toggleValue f.ftype value }
  | .hazardLevel => { f with hazardLevel := toggleValue f.hazardLevel value }
  | .impactArea => { f with impactArea := toggleValue f.impactArea value }
  | .confidence => { f with confidence := toggleValue f.confidence value }

/-- Selector for the facet list named by a `FilterCategory`. -/
def facetOf (f : Filters) : FilterCategory → List String
  | .ftype => f.ftype
  | .hazardLevel => f.hazardLevel
  | .impactArea => f.impactArea
  | .confidence => f.confidence

/-! ## Patrol engine (`MonitorPage.tsx` lines 217–237 and 350–401)

The position updater of `runSimulationStep` interpolates between the two
fixed endpoints `PATROL_START_POINT` (83, −70) and `PATROL_END_POINT`
(70, −20), flipping `patrolDirectionRef` when the incremented step index
reaches `totalSteps`.

`totalSteps = ceil(distKm / (SPEED_KPH * INTERVAL_H))` is a fixed positive
integer computed once per tick from the route constants through
`Math.cos`/`Math.hypot`; as a floating-point transcendental computation it
is carried here as an abstract positive parameter `ts` — the stepping,
reversal, heading and interpolation logic below uses no property of it
beyond positivity. -/

/-- `SatellitePosition` as used by the patrol-engine `MonitorPage.tsx`
    (`lat`, `lng`, `heading`, `dataRate`, `stepIndex`).  `stepIndex` starts
    at 0 and is only ever set to a successor or reset to 0, so it is
    carried as `ℕ`. -/
structure SatPos where
  lat : ℚ
  lng : ℚ
  heading : ℚ
  dataRate : ℚ
  stepIndex : ℕ
  deriving DecidableEq, Repr

/-- The patrol direction held in `patrolDirectionRef`. -/
inductive PatrolDir where
  | forward | backward
  deriving DecidableEq, Repr

/-- Direction flip performed when a leg completes. -/
def flipDir : PatrolDir → PatrolDir
  | .forward => .backward
  | .backward => .forward

/-- `PATROL_START_POINT`'s coordinates (lat, lng). -/
def patrolStartPoint : ℚ × ℚ := (83, -70)

/-- `PATROL_END_POINT`'s coordinates (lat, lng). -/
def patrolEndPoint : ℚ × ℚ := (70, -20)

/-- `PATROL_HEADING` (135°, southeast). -/
def patrolHeading : ℚ := 135

/-- The leg's start point for a direction
    (`isForward ? PATROL_START_POINT : PATROL_END_POINT`). -/
def startPointFor : PatrolDir → ℚ × ℚ
  | .forward => patrolStartPoint
  | .backward => patrolEndPoint

/-- The leg's end point for a direction
    (`isForward ? PATROL_END_POINT : PATROL_START_POINT`). -/
def endPointFor : PatrolDir → ℚ × ℚ
  | .forward => patrolEndPoint
  | .backward => patrolStartPoint

/-- The heading emitted while travelling in a given direction:
    `isForward ? PATROL_HEADING : (PATROL_HEADING + 180) % 360`. -/
def headingFor : PatrolDir → ℚ
  | .forward => patrolHeading
  | .backward => jsMod (patrolHeading + 180) 360

/-- Patrol engine state: the satellite position plus `patrolDirectionRef`. -/
structure PatrolState where
  pos : SatPos
  dir : PatrolDir
  deriving DecidableEq, Repr

/-- The initial patrol state: `PATROL_START_POINT` with
    `heading 135, dataRate 500, stepIndex 0`, direction forward. -/
def initPatrol : PatrolState :=
  { pos := { lat := 83, lng := -70, heading := 135, dataRate := 500, stepIndex := 0 }
    dir := .forward }

/-- One position update of `runSimulationStep` (MonitorPage.tsx lines
    350–401).  `ts` is `totalSteps` (see section comment); `rand` is the
    `Math.random()` draw feeding the cosmetic `dataRate`. -/
def patrolStep (ts : ℕ) (rand : ℚ) (s : PatrolState) : PatrolState :=
  let sp := startPointFor s.dir
  let ep := endPointFor s.dir
  let dLat := ep.1 - sp.1
  let dLng := jsNorm (ep.2 - sp.2)
  let step0 := s.pos.stepIndex + 1
  let flipped := ts ≤ step0
  let dir' := if flipped then flipDir s.dir else s.dir
  let step := if flipped then 0 else step0
  let progress : ℚ := (step : ℚ) / (ts : ℚ)
  let lat := sp.1 + dLat * progress
  let lng := jsNorm (sp.2 + dLng * progress)
  let heading := headingFor s.dir
  let dataRate := 500 + (rand - 1/2) * 50
  { pos := { lat := lat, lng := lng, heading := heading,
             dataRate := dataRate, stepIndex := step }
    dir := dir' }

/-! ## Classification adapter (`src/services/geminiService.ts`)

`analyzeImage` calls the external Gemini service up to `MAX_RETRIES` times.
The service call (network + JSON parse, everything inside the `try` up to
the `result.detections` check) is modelled as `svc : ℕ → SvcResult` giving
the outcome of each attempt: `ok parsed` carries the value of
`result.detections` when present and an array (`none` models a missing or
non-array field); `err msg` carries the caught error's message.  The jitter
`Math.random() * 5000` added to each backoff delay is the parameter
`jitter`. -/

/-- `Partial<PollutionData>` as parsed from the service response: every
    field optional. -/
structure RawDetection where
  rtype : Option String
  rconfidence : Option ℚ
  rgeometry : Option GeoJSONGeometry
  rimpactArea : Option String
  rhazardLevel : Option String
  deriving DecidableEq, Repr

/-- Outcome of one service call attempt (success with the parsed
    `result.detections` field, or a thrown error's message). -/
inductive SvcResult where
  | ok (detections : Option (List RawDetection))
  | err (msg : String)
  deriving DecidableEq, Repr

/-- `MAX_RETRIES` of `analyzeImage` (geminiService.ts line 40). -/
def MAX_RETRIES : ℕ := 3

/-- Does `pat` occur as a prefix of `s` (on character lists)? -/
def substrAt : List Char → List Char → Bool
  | [], _ => true
  | _ :: _, [] => false
  | p :: ps, c :: cs => p = c && substrAt ps cs

/-- Does `pat` occur as a substring of `s` (on character lists)? -/
def hasSubstr (s pat : List Char) : Bool :=
  match s with
  | [] => pat.isEmpty
  | _ :: rest => substrAt pat s || hasSubstr rest pat

/-- Substring test, modelling JS `String.prototype.includes`. -/
def containsSub (s pat : String) : Bool :=
  hasSubstr s.data pat.data

/-- The rate-limit check of geminiService.ts line 124:
    `errorMessage.includes('429') || errorMessage.includes('RESOURCE_EXHAUSTED')`. -/
def isRateLimitMsg (msg : String) : Bool :=
  containsSub msg "429" || containsSub msg "RESOURCE_EXHAUSTED"

/-- The `Fatal` message thrown after exhausting retries
    (geminiService.ts line 127). -/
def rateLimitFatalMsg : String :=
  "Достигнут лимит запросов к API. Пожалуйста, подождите несколько минут перед повторным запуском мониторинга."

/-- The `Fatal` message thrown on a non-retriable error
    (geminiService.ts line 136). -/
def genericFatalMsg : String :=
  "Не удалось получить анализ от Gemini API."

/-- The unreachable fallback message after the loop
    (geminiService.ts line 142). -/
def fallbackFatalMsg : String :=
  "Не удалось завершить анализ изображения после нескольких попыток."

/-- Result of `analyzeImage`: the returned detection list, or the message
    of the raised `Fatal` error. -/
inductive AnalyzeOutcome where
  | ok (dets : List RawDetection)
  | fatal (msg : String)
  deriving DecidableEq, Repr

/-- `analyzeImage`'s observable behaviour: its outcome, the number of
    service calls it made, and the backoff delays (ms) it slept between
    attempts, in order. -/
structure AnalyzeTrace where
  outcome : AnalyzeOutcome
  calls : ℕ
  delays : List ℚ
  deriving DecidableEq, Repr

/-- The retry loop of `analyzeImage` (geminiService.ts lines 41–139).
    `attempt` is the loop counter, `remaining = MAX_RETRIES - attempt` the
    iterations left.  On success the detections (or `[]` when the field is
    missing) are returned; on a rate-limit error the last attempt raises
    the lasting-rate-limit `Fatal`, earlier attempts sleep
    `2^attempt * 60000 + jitter attempt` and retry; any other error raises
    `Fatal` immediately. -/
def analyzeGo (svc : ℕ → SvcResult) (jitter : ℕ → ℚ) : ℕ → ℕ → AnalyzeTrace
  | _, 0 => { outcome := .fatal fallbackFatalMsg, calls := 0, delays := [] }
  | attempt, remaining + 1 =>
    match svc attempt with
    | .ok dets => { outcome := .ok (dets.getD []), calls := 1, delays := [] }
    | .err msg =>
      if isRateLimitMsg msg then
        if attempt = MAX_RETRIES - 1 then
          { outcome := .fatal rateLimitFatalMsg, calls := 1, delays := [] }
        else
          let rest := analyzeGo svc jitter (attempt + 1) remaining
          { outcome := rest.outcome
            calls := rest.calls + 1
            delays := (2 ^ attempt * 60000 + jitter attempt) :: rest.delays }
      else
        { outcome := .fatal genericFatalMsg, calls := 1, delays := [] }

/-- `analyzeImage` (geminiService.ts lines 26–143), as a trace of its
    retry loop starting at attempt 0. -/
def analyzeImage (svc : ℕ → SvcResult) (jitter : ℕ → ℚ) : AnalyzeTrace :=
  analyzeGo svc jitter 0 MAX_RETRIES

/-! ## Merging results into the store (`MonitorPage.tsx` lines 315–341)

`analyzePosition` maps each returned entry through per-field JS `||`
defaults and appends the result to `pollutionData` when the list is
non-empty.  JS `||` takes the right operand on `undefined`, `''` and `0`,
which the two `jsOr` helpers reproduce. -/

/-- JS `x || d` for an optional string (`undefined` and `''` are falsy). -/
def jsOrString (x : Option String) (d : String) : String :=
  match x with
  | none => d
  | some s => if s = "" then d else s

/-- JS `x || d` for an optional number (`undefined` and `0` are falsy). -/
def jsOrRat (x : Option ℚ) (d : ℚ) : ℚ :=
  match x with
  | none => d
  | some q => if q = 0 then d else q

/-- The per-entry defaulting of `analyzePosition` (MonitorPage.tsx lines
    322–329): missing type → `'Нефтяное'`, missing confidence → `0.8`,
    missing geometry → empty polygon, missing impactArea → `'Вода'`,
    missing hazardLevel → `'Средний'`; `timestamp := Date.now()`. -/
def fillDetection (now : ℕ) (r : RawDetection) : PollutionData :=
  { ptype := jsOrString r.rtype "Нефтяное"
    confidence := jsOrRat r.rconfidence (4/5)
    geometry := (r.rgeometry).getD { coordinates := [] }
    timestamp := now
    impactArea := jsOrString r.rimpactArea "Вода"
    hazardLevel := jsOrString r.rhazardLevel "Средний" }

/-- The store update of `analyzePosition` on a resolved call: when the
    result list is non-empty, the defaulted entries are appended to the
    store; otherwise the store is left as is. -/
def mergeDetections (store : List PollutionData) (result : List RawDetection)
    (now : ℕ) : List PollutionData :=
  if result.length > 0 then store ++ result.map (fillDetection now) else store

/-! ## Scan scheduler (`MonitorPage.tsx` lines 240–458)

The scheduler is the React component state plus the refs, driven by:

* **tick** — one invocation of `runSimulationStep` (the interval fires only
  while `appState ≠ Stopped`, since the `useEffect` on `appState` clears
  the interval in the `Stopped` branch): increments `scanCounterRef`,
  computes `shouldAnalyze = counter % 90 == 0`, advances the patrol
  position, and — when `shouldAnalyze` and `isAnalyzingRef` is clear —
  sets the guard, starts a classification call (synchronously reaching
  `setAppState(Analyzing)` inside `analyzePosition`) and counts one
  adapter call; when no analysis is running it otherwise settles to
  `Idle`; when one is running it leaves `appState` alone.
* **resolveOk / resolveFail** — the continuation of an outstanding
  `analyzePosition` call: merge the result into the store (success only),
  `finally` set `appState := Idle`, and the `.finally` at the call site
  clears `isAnalyzingRef`.  With no call outstanding there is no
  continuation to run.
* **stop** — `stopSimulation` (lines 267–271): `appState := Stopped`,
  `isAnalyzingRef := false`.  The outstanding call, if any, is not
  cancelled.
* **start** — `startSimulation` (lines 259–265): reset `scanCounterRef`,
  direction and position, `appState := Idle`.
-/

/-- `AppState` of `types.ts`. -/
inductive AppState where
  | stopped | idle | scanning | analyzing
  deriving DecidableEq, Repr

/-- `ANALYSIS_PERIOD`: `shouldAnalyze = scanCounter % 90 == 0`
    (MonitorPage.tsx line 348). -/
def analysisPeriod : ℕ := 90

/-- The scheduler's mutable state: React state (`appState`,
    `pollutionData`), the refs (`scanCounterRef`, `isAnalyzingRef`,
    `patrolDirectionRef` with the position), plus two history counters —
    `outstanding` classification calls not yet resolved and total adapter
    `calls` — that record the interaction with the adapter. -/
structure SchedState where
  app : AppState
  counter : ℕ
  analyzing : Bool
  patrol : PatrolState
  store : List PollutionData
  outstanding : ℕ
  calls : ℕ
  deriving DecidableEq, Repr

/-- The scheduler before `start` is ever pressed: `Stopped`, counter 0,
    guard clear, satellite at `PATROL_START_POINT`, and the store holding
    `initialPollutionData` (an empty array in the source, line 215). -/
def initSched : SchedState :=
  { app := .stopped, counter := 0, analyzing := false, patrol := initPatrol,
    store := [], outstanding := 0, calls := 0 }

/-- One `runSimulationStep` tick (MonitorPage.tsx lines 346–431).  When the
    scheduler is `Stopped`, the interval is disarmed and no tick occurs. -/
def schedTick (ts : ℕ) (rand : ℚ) (s : SchedState) : SchedState :=
  if s.app = .stopped then s
  else
    let c := s.counter + 1
    let shouldAnalyze := c % analysisPeriod = 0
    let patrol' := patrolStep ts rand s.patrol
    if shouldAnalyze ∧ s.analyzing = false then
      { s with app := .analyzing, counter := c, analyzing := true,
               patrol := patrol', outstanding := s.outstanding + 1,
               calls := s.calls + 1 }
    else if s.analyzing = false then
      { s with app := .idle, counter := c, patrol := patrol' }
    else
      { s with counter := c, patrol := patrol' }

/-- Resolution of an outstanding classification call with result list
    `result` at time `now`: `analyzePosition` merges the result into the
    store, its `finally` sets `appState := Idle`, and the `.finally` at the
    call site clears `isAnalyzingRef` — all unconditionally. -/
def schedResolveOk (result : List RawDetection) (now : ℕ) (s : SchedState) : SchedState :=
  if s.outstanding = 0 then s
  else
    { s with store := mergeDetections s.store result now, app := .idle,
             analyzing := false, outstanding := s.outstanding - 1 }

/-- Resolution of an outstanding classification call with an error: the
    `catch` logs, the `finally` sets `appState := Idle`, the call-site
    `.finally` clears the guard; the store is untouched. -/
def schedResolveFail (s : SchedState) : SchedState :=
  if s.outstanding = 0 then s
  else
    { s with app := .idle, analyzing := false, outstanding := s.outstanding - 1 }

/-- `stopSimulation` (MonitorPage.tsx lines 267–271). -/
def schedStop (s : SchedState) : SchedState :=
  { s with app := .stopped, analyzing := false }

/-- `startSimulation` (MonitorPage.tsx lines 259–265). -/
def schedStart (s : SchedState) : SchedState :=
  { s with app := .idle, counter := 0, patrol := initPatrol }

/-- The events the scheduler reacts to. -/
inductive SchedAction where
  | tick (rand : ℚ)
  | resolveOk (result : List RawDetection) (now : ℕ)
  | resolveFail
  | stop
  | start
  deriving DecidableEq, Repr

/-- Dispatch of one event. -/
def applyAction (ts : ℕ) : SchedAction → SchedState → SchedState
  | .tick rand => schedTick ts rand
  | .resolveOk result now => schedResolveOk result now
  | .resolveFail => schedResolveFail
  | .stop => schedStop
  | .start => schedStart

/-- A run of the scheduler over a list of events. -/
def runActions (ts : ℕ) (acts : List SchedAction) (s : SchedState) : SchedState :=
  acts.foldl (fun st a => applyAction ts a st) s

/-- `n` consecutive timer ticks, the `k`-th using the random draw
    `rands k`. -/
def tickIter (ts : ℕ) (rands : ℕ → ℚ) : ℕ → SchedState → SchedState
  | 0, s => s
  | n + 1, s => schedTick ts (rands n) (tickIter ts rands n s)

/-- Events that occur within a single run of the scheduler: timer ticks
    and call resolutions, as opposed to the `start`/`stop` lifecycle
    transitions. -/
def SchedAction.isRunEvent : SchedAction → Bool
  | .tick _ => true
  | .resolveOk _ _ => true
  | .resolveFail => true
  | .stop => false
  | .start => false

/-! ## Mock pollution service (`src/services/mockPollutionService.ts`)

`Math.random()` draws are supplied by `draws : ℕ → ℚ`, consumed at
successive indices in the source's evaluation order.  `Math.PI`,
`Math.cos` and `Math.sin` feed only the generated vertex coordinates
(which no claim constrains) and are abstract parameters `piQ`, `cosF`,
`sinF`. -/

/-- `POLLUTION_TYPES` (mockPollutionService.ts line 4). -/
def pollutionTypes : List String := ["Химическое", "Нефтяное", "Физическое"]

/-- `HAZARD_LEVELS` (mockPollutionService.ts line 5). -/
def hazardLevels : List String := ["Низкий", "Средний", "Высокий"]

/-- `getRandomElement` (line 7): `arr[Math.floor(r * arr.length)]`, with the
    draw `r` made explicit. -/
def getRandomElement (arr : List String) (r : ℚ) : String :=
  arr.getD (Int.toNat ⌊r * (arr.length : ℚ)⌋) ""

/-- `ARCTIC_LANDMASSES` (lines 12–33): simplified arctic land polygons,
    vertices as (lng, lat) pairs. -/
def arcticLandmasses : List (List (ℚ × ℚ)) :=
  [ [(-55, 83.5), (-20, 83), (-15, 81), (-25, 75), (-35, 68), (-50, 60),
     (-60, 65), (-70, 70), (-60, 78), (-55, 83.5)],
    [(10, 80.8), (30, 80.5), (32, 79), (25, 77), (12, 77.5), (10, 80.8)],
    [(-125, 78), (-110, 82), (-80, 83), (-65, 81), (-60, 75), (-70, 68),
     (-85, 65), (-100, 68), (-120, 70), (-130, 72), (-125, 78)],
    [(60, 73), (80, 77), (100, 79), (120, 78), (140, 76), (170, 72),
     (180, 70), (170, 68), (140, 70), (120, 72), (100, 73), (80, 72), (60, 73)],
    [(-168, 71.5), (-155, 71), (-145, 70), (-141, 68), (-150, 67),
     (-165, 68), (-168, 71.5)] ]

/-- `isPointInPolygon` (lines 41–56): ray-casting over the vertex list,
    with `x` the longitude and `y` the latitude of the tested point. -/
def isPointInPolygon (x y : ℚ) (polygon : List (ℚ × ℚ)) : Bool :=
  let n := polygon.length
  (List.range n).foldl
    (fun inside i =>
      let j := if i = 0 then n - 1 else i - 1
      let vi := polygon.getD i (0, 0)
      let vj := polygon.getD j (0, 0)
      let intersect := (decide (vi.2 > y) != decide (vj.2 > y)) &&
        decide (x < (vj.1 - vi.1) * (y - vi.2) / (vj.2 - vi.2) + vi.1)
      if intersect then !inside else inside)
    false

/-- `isLand` (lines 64–72): the point `[lng, lat]` against each landmass. -/
def isLand (lat lng : ℚ) : Bool :=
  arcticLandmasses.any (fun landmass => isPointInPolygon lng lat landmass)

/-- `generatePolygon` (lines 76–88): a random ring of `5 + ⌊r·5⌋` vertices
    around `(lat, lng)`, closed by re-appending its first vertex.  Returns
    the `coordinates` value (a singleton list holding the ring) and the
    next unused draw index.  Draws consumed: `i` (vertex count), `i+1`
    (radius), then two per vertex. -/
def generatePolygon (piQ : ℚ) (cosF sinF : ℚ → ℚ) (lat lng : ℚ)
    (draws : ℕ → ℚ) (i : ℕ) : List (List (List ℚ)) × ℕ :=
  let points := 5 + Int.toNat ⌊draws i * 5⌋
  let radius := 1/5 + draws (i + 1) * (4/5)
  let coords := (List.range points).map (fun (k : ℕ) =>
    let angle := ((k : ℚ) / (points : ℚ)) * 2 * piQ
    let pointLat := lat + cosF angle * radius * (1/2 + draws (i + 2 + 2*k : ℕ) * (1/2))
    let pointLng := lng + sinF angle * radius * (1/2 + draws (i + 2 + 2*k + 1 : ℕ) * (1/2))
    [pointLng, pointLat])
  ([coords ++ [coords.getD 0 []]], i + 2 + 2 * points)

/-- The detection loop of `generateMockPollutionData` (lines 99–118),
    producing `count` detections starting at draw index `i`.  Each
    iteration draws the centre offsets, the type, the confidence
    `0.75 + r·0.24`, the polygon's draws, and the hazard level, in the
    source's evaluation order. -/
def genMockGo (piQ : ℚ) (cosF sinF : ℚ → ℚ) (pos : SatPos) (draws : ℕ → ℚ)
    (now : ℕ) : ℕ → ℕ → List PollutionData
  | 0, _ => []
  | count + 1, i =>
    let centerLat := pos.lat + (draws i - 1/2) * (3/2)
    let centerLng := pos.lng + (draws (i + 1) - 1/2) * (3/2)
    let impact := if isLand centerLat centerLng then "Почва" else "Вода"
    let pg := generatePolygon piQ cosF sinF centerLat centerLng draws (i + 4)
    { ptype := getRandomElement pollutionTypes (draws (i + 2))
      confidence := 3/4 + draws (i + 3) * (24/100)
      geometry := { coordinates := pg.1 }
      timestamp := now
      impactArea := impact
      hazardLevel := getRandomElement hazardLevels (draws pg.2)
    } :: genMockGo piQ cosF sinF pos draws now count (pg.2 + 1)

/-- `generateMockPollutionData` (lines 90–121): with probability 0.4 no
    detections (`draws 0 < 0.4`); otherwise `1 + ⌊r·2⌋` detections are
    generated from draw index 2 on. -/
def generateMockPollutionData (piQ : ℚ) (cosF sinF : ℚ → ℚ)
    (satellitePosition : SatPos) (draws : ℕ → ℚ) (now : ℕ) : List PollutionData :=
  if draws 0 < 2/5 then []
  else genMockGo piQ cosF sinF satellitePosition draws now
        (1 + Int.toNat ⌊draws 1 * 2⌋) 2

/-! ## Concrete instances used in the verification -/

/-- A detection with kind Oil (`'Нефтяное'`) and hazard High (`'Высокий'`). -/
def dOil : PollutionData :=
  { ptype := "Нефтяное", confidence := 4/5, geometry := { coordinates := [] },
    timestamp := 0, impactArea := "Вода", hazardLevel := "Высокий" }

/-- A detection with kind Chemical (`'Химическое'`) and hazard Low (`'Низкий'`). -/
def dChem : PollutionData :=
  { ptype := "Химическое", confidence := 4/5, geometry := { coordinates := [] },
    timestamp := 0, impactArea := "Вода", hazardLevel := "Низкий" }

/-- A well-formed classification response entry (used to resolve an
    outstanding call). -/
def rawOil : RawDetection :=
  { rtype := some "Нефтяное", rconfidence := some (9/10),
    rgeometry := some { coordinates := [[[-45, 75], [-44, 75], [-44, 76], [-45, 75]]] },
    rimpactArea := some "Вода", rhazardLevel := some "Высокий" }

/-- A malformed classification response entry: every field missing, in
    particular no boundary polygon at all. -/
def boundlessRaw : RawDetection :=
  { rtype := none, rconfidence := none, rgeometry := none,
    rimpactArea := none, rhazardLevel := none }

/-- A patrol state two steps into the forward leg (used with
    `totalSteps = 3`, so the next tick completes the leg). -/
def nearEndPatrol : PatrolState :=
  { pos := { lat := 83, lng := -70, heading := 135, dataRate := 500, stepIndex := 2 }
    dir := .forward }

/-- A scheduler state whose in-flight guard is set. -/
def analyzingSched : SchedState := { initSched with analyzing := true }

/-- A concrete random stream: every draw is `1/2` except draw 1 (the
    detection-count draw), which is 0 — so `generateMockPollutionData`
    produces exactly one detection. -/
def mockDraws : ℕ → ℚ := fun n => if n = 1 then 0 else 1/2

/-- The single detection `generateMockPollutionData` produces from
    `mockDraws` with `Math.PI`, `Math.cos` and `Math.sin` instantiated to
    the constant-zero functions, scanned from the initial satellite
    position at time 7. -/
def mockDet : PollutionData :=
  { ptype := "Нефтяное", confidence := 87/100,
    geometry := { coordinates := [List.replicate 7 [(-70 : ℚ), 83] ++ [[(-70 : ℚ), 83]]] },
    timestamp := 7, impactArea := "Вода", hazardLevel := "Средний" }

/-! ## Helper lemmas -/

lemma toggleValue_twice_mem (arr : List String) (val x : String) :
    x ∈ toggleValue (toggleValue arr val) val ↔ x ∈ arr := by
  by_cases h : val ∈ arr
  · have h2 : val ∉ arr.filter (fun v => v ≠ val) := by
      simp [List.mem_filter]
    simp only [toggleValue, h, h2]
    simp only [List.elem_eq_mem, decide_eq_true_eq, h, if_true, h2, if_false,
      List.mem_append, List.mem_filter, List.mem_singleton]
    by_cases hxv : x = val <;> simp [hxv, h]
  · have h3 : arr.filter (fun v => v ≠ val) = arr :=
      List.filter_eq_self.mpr (fun a ha => by
        simp only [ne_eq, decide_eq_true_eq]
        rintro rfl; exact h ha)
    have h2 : val ∈ arr ++ [val] := by simp
    simp only [toggleValue, List.elem_eq_mem, decide_eq_true_eq, h, if_false,
      h2, if_true, List.filter_append, h3, List.filter_singleton]
    simp

lemma passesFilters_iff (f : Filters) (p : PollutionData) :
    passesFilters f p = true ↔
      ((f.ftype = [] ∨ p.ptype ∈ f.ftype) ∧
       (f.hazardLevel = [] ∨ p.hazardLevel ∈ f.hazardLevel) ∧
       (f.impactArea = [] ∨ p.impactArea ∈ f.impactArea) ∧
       (f.confidence = [] ∨ getConfidenceLevel p.confidence ∈ f.confidence)) := by
  simp [passesFilters, List.length_eq_zero, and_assoc]

lemma filteredPollutionData_eq_filter (f : Filters) (data : List PollutionData) :
    filteredPollutionData f data = data.filter (fun p => passesFilters f p) := by
  unfold filteredPollutionData
  cases hA : (decide (f.ftype.length > 0) || decide (f.hazardLevel.length > 0) ||
      decide (f.impactArea.length > 0) || decide (f.confidence.length > 0)) with
  | false =>
    simp only [Bool.or_eq_false_iff, decide_eq_false_iff_not, not_lt,
      Nat.le_zero, List.length_eq_zero] at hA
    obtain ⟨⟨⟨h1, h2⟩, h3⟩, h4⟩ := hA
    have hall : ∀ q ∈ data, passesFilters f q = true := by
      intro q _
      rw [passesFilters_iff]
      exact ⟨Or.inl h1, Or.inl h2, Or.inl h3, Or.inl h4⟩
    simp only [h1, h2, h3, h4]
    simp [List.filter_eq_self.mpr hall, h1, h2, h3, h4]
  | true =>
    simp only [hA]
    simp

lemma jsNorm_id (x : ℚ) (hl : -180 < x) (hr : x < 180) : jsNorm x = x := by
  have h360 : (0:ℚ) < 360 := by norm_num
  have ha1 : x + 180 < 360 := by linarith
  have hq1 : (0:ℚ) ≤ (x + 180) / 360 := div_nonneg (by linarith) (by norm_num)
  have hq2 : (x + 180) / 360 < 1 := (div_lt_one h360).mpr ha1
  have hf1 : ⌊(x + 180) / 360⌋ = 0 := by
    rw [Int.floor_eq_zero_iff]
    exact ⟨hq1, hq2⟩
  have hm1 : jsMod (x + 180) 360 = x + 180 := by
    unfold jsMod ratTrunc
    rw [if_pos hq1, hf1]
    push_cast
    ring
  have hb0 : (1:ℚ) ≤ (x + 180 + 360) / 360 := by
    rw [le_div_iff₀ h360]
    linarith
  have hb1 : (x + 180 + 360) / 360 < 2 := by
    rw [div_lt_iff₀ h360]
    linarith
  have hf2 : ⌊(x + 180 + 360) / 360⌋ = 1 := by
    rw [Int.floor_eq_iff]
    constructor
    · push_cast
      linarith
    · push_cast
      linarith
  have hm2 : jsMod (x + 180 + 360) 360 = x + 180 := by
    unfold jsMod ratTrunc
    rw [if_pos (by linarith : (0:ℚ) ≤ (x + 180 + 360) / 360), hf2]
    push_cast
    ring
  unfold jsNorm
  rw [hm1, hm2]
  ring

lemma patrolStep_stepIndex (ts : ℕ) (rand : ℚ) (s : PatrolState) :
    (patrolStep ts rand s).pos.stepIndex =
      if ts ≤ s.pos.stepIndex + 1 then 0 else s.pos.stepIndex + 1 := rfl

lemma patrolStep_dir (ts : ℕ) (rand : ℚ) (s : PatrolState) :
    (patrolStep ts rand s).dir =
      if ts ≤ s.pos.stepIndex + 1 then flipDir s.dir else s.dir := rfl

lemma patrolStep_heading (ts : ℕ) (rand : ℚ) (s : PatrolState) :
    (patrolStep ts rand s).pos.heading = headingFor s.dir := rfl

lemma patrolStep_lat (ts : ℕ) (rand : ℚ) (s : PatrolState) :
    (patrolStep ts rand s).pos.lat =
      (startPointFor s.dir).1 +
        ((endPointFor s.dir).1 - (startPointFor s.dir).1) *
          (((if ts ≤ s.pos.stepIndex + 1 then 0 else s.pos.stepIndex + 1 : ℕ) : ℚ) / (ts : ℚ)) := rfl

lemma patrolStep_lng (ts : ℕ) (rand : ℚ) (s : PatrolState) :
    (patrolStep ts rand s).pos.lng =
      jsNorm ((startPointFor s.dir).2 +
        jsNorm ((endPointFor s.dir).2 - (startPointFor s.dir).2) *
          (((if ts ≤ s.pos.stepIndex + 1 then 0 else s.pos.stepIndex + 1 : ℕ) : ℚ) / (ts : ℚ))) := rfl

/-- For every direction, the progress fraction along the leg lies in `[0, 1)`
    after a step (requires a positive total step count). -/
lemma patrolStep_progress_bounds (ts : ℕ) (s : PatrolState) (hts : 0 < ts) :
    (0:ℚ) ≤ (((if ts ≤ s.pos.stepIndex + 1 then 0 else s.pos.stepIndex + 1 : ℕ) : ℚ) / (ts : ℚ)) ∧
    (((if ts ≤ s.pos.stepIndex + 1 then 0 else s.pos.stepIndex + 1 : ℕ) : ℚ) / (ts : ℚ)) < 1 := by
  have hts' : (0:ℚ) < (ts : ℚ) := by exact_mod_cast hts
  constructor
  · positivity
  · rw [div_lt_one hts']
    split
    · exact_mod_cast hts
    · rename_i h
      exact_mod_cast Nat.lt_of_not_le h

lemma patrolStep_lat_bounds (ts : ℕ) (rand : ℚ) (s : PatrolState) (hts : 0 < ts) :
    70 ≤ (patrolStep ts rand s).pos.lat ∧ (patrolStep ts rand s).pos.lat ≤ 83 := by
  obtain ⟨hp0, hp1⟩ := patrolStep_progress_bounds ts s hts
  rw [patrolStep_lat]
  set q := (((if ts ≤ s.pos.stepIndex + 1 then 0 else s.pos.stepIndex + 1 : ℕ) : ℚ) / (ts : ℚ)) with hq
  cases s.dir <;>
    simp only [startPointFor, endPointFor, patrolStartPoint, patrolEndPoint] <;>
    constructor <;> nlinarith

lemma patrolStep_lng_bounds (ts : ℕ) (rand : ℚ) (s : PatrolState) (hts : 0 < ts) :
    -70 ≤ (patrolStep ts rand s).pos.lng ∧ (patrolStep ts rand s).pos.lng ≤ -20 := by
  obtain ⟨hp0, hp1⟩ := patrolStep_progress_bounds ts s hts
  rw [patrolStep_lng]
  set q := (((if ts ≤ s.pos.stepIndex + 1 then 0 else s.pos.stepIndex + 1 : ℕ) : ℚ) / (ts : ℚ)) with hq
  have h50 : jsNorm (50 : ℚ) = 50 := jsNorm_id 50 (by norm_num) (by norm_num)
  have h50' : jsNorm (-50 : ℚ) = -50 := jsNorm_id (-50) (by norm_num) (by norm_num)
  cases s.dir
  · simp only [startPointFor, endPointFor, patrolStartPoint, patrolEndPoint]
    have : (-20 : ℚ) - -70 = 50 := by norm_num
    rw [this, h50]
    rw [jsNorm_id (-70 + 50 * q) (by nlinarith) (by nlinarith)]
    constructor <;> nlinarith
  · simp only [startPointFor, endPointFor, patrolStartPoint, patrolEndPoint]
    have : (-70 : ℚ) - -20 = -50 := by norm_num
    rw [this, h50']
    rw [jsNorm_id (-20 + -50 * q) (by nlinarith) (by nlinarith)]
    constructor <;> nlinarith

lemma headingFor_backward : headingFor PatrolDir.backward = 315 := by
  have hf : ⌊(135 + 180 : ℚ) / 360⌋ = 0 := by
    rw [Int.floor_eq_zero_iff]
    constructor <;> norm_num
  unfold headingFor jsMod ratTrunc patrolHeading
  rw [if_pos (by norm_num : (0:ℚ) ≤ (135 + 180) / 360), hf]
  norm_num

lemma headingFor_bounds (d : PatrolDir) :
    0 ≤ headingFor d ∧ headingFor d < 360 := by
  cases d
  · constructor <;> norm_num [headingFor, patrolHeading]
  · rw [headingFor_backward]
    constructor <;> norm_num

lemma append_first_closed (l : List (List ℚ)) (hl : l ≠ []) :
    (l ++ [l.getD 0 []]).head? = (l ++ [l.getD 0 []]).getLast? := by
  rcases l with _ | ⟨a, t⟩
  · exact absurd rfl hl
  · rw [List.getLast?_concat]
    simp

lemma generatePolygon_spec (piQ : ℚ) (cosF sinF : ℚ → ℚ) (lat lng : ℚ)
    (draws : ℕ → ℚ) (i : ℕ) :
    ∃ ring, (generatePolygon piQ cosF sinF lat lng draws i).1 = [ring] ∧
      6 ≤ ring.length ∧ ring.head? = ring.getLast? := by
  unfold generatePolygon
  refine ⟨_, rfl, ?_, ?_⟩
  · simp
  · apply append_first_closed
    intro hnil
    have := congrArg List.length hnil
    simp at this

lemma genMockGo_wellformed (piQ : ℚ) (cosF sinF : ℚ → ℚ) (pos : SatPos)
    (draws : ℕ → ℚ) (now : ℕ) (hd : ∀ n, 0 ≤ draws n ∧ draws n < 1) :
    ∀ (count i : ℕ) (d : PollutionData),
      d ∈ genMockGo piQ cosF sinF pos draws now count i →
      (∃ ring, d.geometry.coordinates = [ring] ∧ 4 ≤ ring.length ∧
        ring.head? = ring.getLast?) ∧
      0 ≤ d.confidence ∧ d.confidence ≤ 1 := by
  intro count
  induction count with
  | zero =>
    intro i d hmem
    simp [genMockGo] at hmem
  | succ n ih =>
    intro i d hmem
    simp only [genMockGo] at hmem
    rcases List.mem_cons.mp hmem with h | h
    · subst h
      obtain ⟨h0, h1⟩ := hd (i + 3)
      refine ⟨?_, ?_, ?_⟩
      · obtain ⟨ring, hr, hlen, hcl⟩ := generatePolygon_spec piQ cosF sinF
          (pos.lat + (draws i - 1/2) * (3/2)) (pos.lng + (draws (i+1) - 1/2) * (3/2))
          draws (i + 4)
        exact ⟨ring, hr, by omega, hcl⟩
      · nlinarith
      · nlinarith
    · exact ih _ d h

lemma int_toNat_two : Int.toNat 2 = 2 := rfl

/-- Concrete evaluation of the mock generator on the `mockDraws` stream. -/
lemma generateMock_concrete :
    generateMockPollutionData 0 (fun _ => 0) (fun _ => 0) initPatrol.pos mockDraws 7
      = [mockDet] := by
  norm_num [generateMockPollutionData, genMockGo, generatePolygon, getRandomElement,
    pollutionTypes, hazardLevels, mockDraws, mockDet, initPatrol, isLand, arcticLandmasses,
    isPointInPolygon, List.range_succ, List.foldl_append, List.getD_eq_getElem?_getD,
    List.replicate, Int.toNat_ofNat, int_toNat_two]

/-- Characterization of `k` consecutive ticks from any state with a reset
    counter, clear guard and armed timer (`app ≠ Stopped`): the first
    `analysisPeriod`-th tick starts one classification call; with no
    resolution arriving, no further call starts. -/
lemma tickIter_char_from (ts : ℕ) (rands : ℕ → ℚ) (S0 : SchedState)
    (h0 : S0.app ≠ .stopped) (hc0 : S0.counter = 0) (ha0 : S0.analyzing = false) :
    ∀ k : ℕ,
    (tickIter ts rands k S0).counter = k ∧
    (tickIter ts rands k S0).store = S0.store ∧
    (tickIter ts rands k S0).app ≠ .stopped ∧
    (tickIter ts rands k S0).analyzing = decide (analysisPeriod ≤ k) ∧
    (tickIter ts rands k S0).outstanding
      = S0.outstanding + (if analysisPeriod ≤ k then 1 else 0) ∧
    (tickIter ts rands k S0).calls
      = S0.calls + (if analysisPeriod ≤ k then 1 else 0) := by
  intro k
  induction k with
  | zero =>
    refine ⟨hc0, rfl, h0, ?_, ?_, ?_⟩
    · simp only [tickIter]
      rw [ha0]
      simp [analysisPeriod]
    · simp [tickIter, analysisPeriod]
    · simp [tickIter, analysisPeriod]
  | succ n ih =>
    obtain ⟨hc, hs, hap, han, hout, hcal⟩ := ih
    rw [show tickIter ts rands (n+1) S0
        = schedTick ts (rands n) (tickIter ts rands n S0) from rfl]
    set S := tickIter ts rands n S0 with hS
    unfold schedTick
    rw [if_neg hap]
    by_cases hle : analysisPeriod ≤ n
    · have hcond : ¬ ((S.counter + 1) % analysisPeriod = 0 ∧ S.analyzing = false) := by
        rintro ⟨-, hfalse⟩
        rw [han] at hfalse
        simp [hle] at hfalse
      have hana : ¬ (S.analyzing = false) := by
        rw [han]
        simp [hle]
      rw [if_neg hcond, if_neg hana]
      have hle' : analysisPeriod ≤ n + 1 := le_trans hle (Nat.le_succ n)
      refine ⟨by simp [hc], by simp [hs], by simpa using hap, ?_, ?_, ?_⟩
      · simpa [hle'] using han.trans (by simp [hle])
      · simpa [hle', hle] using hout
      · simpa [hle', hle] using hcal
    · have hanaf : S.analyzing = false := by
        rw [han]
        simp [hle]
      by_cases heq : (n + 1) % analysisPeriod = 0
      · have hcond : (S.counter + 1) % analysisPeriod = 0 ∧ S.analyzing = false := by
          constructor
          · rw [hc]
            exact heq
          · exact hanaf
        rw [if_pos hcond]
        have h90 : analysisPeriod ≤ n + 1 := by
          unfold analysisPeriod at heq ⊢
          omega
        refine ⟨by simp [hc], by simp [hs], by simp, by simp [h90], ?_, ?_⟩
        · simp [h90, hout, hle]
        · simp [h90, hcal, hle]
      · have hcond : ¬ ((S.counter + 1) % analysisPeriod = 0 ∧ S.analyzing = false) := by
          rintro ⟨hmod, -⟩
          rw [hc] at hmod
          exact heq hmod
        rw [if_neg hcond, if_pos hanaf]
        have hn1 : ¬ (analysisPeriod ≤ n + 1) := by
          unfold analysisPeriod at heq hle ⊢
          omega
        refine ⟨by simp [hc], by simp [hs], by simp, ?_, ?_, ?_⟩
        · simp [hn1, hanaf]
        · simpa [hn1, hle] using hout
        · simpa [hn1, hle] using hcal

lemma tickIter_char (ts : ℕ) (rands : ℕ → ℚ) (k : ℕ) :
    (tickIter ts rands k (schedStart initSched)).counter = k ∧
    (tickIter ts rands k (schedStart initSched)).store = [] ∧
    (tickIter ts rands k (schedStart initSched)).app ≠ .stopped ∧
    (tickIter ts rands k (schedStart initSched)).analyzing = decide (analysisPeriod ≤ k) ∧
    (tickIter ts rands k (schedStart initSched)).outstanding
      = (if analysisPeriod ≤ k then 1 else 0) ∧
    (tickIter ts rands k (schedStart initSched)).calls
      = (if analysisPeriod ≤ k then 1 else 0) := by
  induction k with
  | zero =>
    simp [tickIter, schedStart, initSched, analysisPeriod]
  | succ n ih =>
    obtain ⟨hc, hs, hap, han, hout, hcal⟩ := ih
    rw [show tickIter ts rands (n+1) (schedStart initSched)
        = schedTick ts (rands n) (tickIter ts rands n (schedStart initSched)) from rfl]
    set S := tickIter ts rands n (schedStart initSched) with hS
    unfold schedTick
    rw [if_neg hap]
    by_cases hle : analysisPeriod ≤ n
    · have hcond : ¬ ((S.counter + 1) % analysisPeriod = 0 ∧ S.analyzing = false) := by
        rintro ⟨-, hfalse⟩
        rw [han] at hfalse
        simp [hle] at hfalse
      have hana : ¬ (S.analyzing = false) := by
        rw [han]
        simp [hle]
      rw [if_neg hcond, if_neg hana]
      have hle' : analysisPeriod ≤ n + 1 := le_trans hle (Nat.le_succ n)
      refine ⟨by simp [hc], by simp [hs], by simpa using hap, ?_, ?_, ?_⟩
      · simpa [hle'] using han.trans (by simp [hle])
      · simpa [hle', hle] using hout
      · simpa [hle', hle] using hcal
    · have hanaf : S.analyzing = false := by
        rw [han]
        simp [hle]
      by_cases heq : (n + 1) % analysisPeriod = 0
      · have hcond : (S.counter + 1) % analysisPeriod = 0 ∧ S.analyzing = false := by
          constructor
          · rw [hc]
            exact heq
          · exact hanaf
        rw [if_pos hcond]
        have h90 : analysisPeriod ≤ n + 1 := by
          unfold analysisPeriod at heq ⊢
          omega
        refine ⟨by simp [hc], by simp [hs], by simp, by simp [h90], ?_, ?_⟩
        · simp [h90, hout, hle]
        · simp [h90, hcal, hle]
      · have hcond : ¬ ((S.counter + 1) % analysisPeriod = 0 ∧ S.analyzing = false) := by
          rintro ⟨hmod, -⟩
          rw [hc] at hmod
          exact heq hmod
        rw [if_neg hcond, if_pos hanaf]
        have hn1 : ¬ (analysisPeriod ≤ n + 1) := by
          unfold analysisPeriod at heq hle ⊢
          omega
        refine ⟨by simp [hc], by simp [hs], by simp, ?_, ?_, ?_⟩
        · simp [hn1, hanaf]
        · simpa [hn1, hle] using hout
        · simpa [hn1, hle] using hcal

lemma schedTick_inv (ts : ℕ) (rand : ℚ) (s : SchedState)
    (h : s.outstanding ≤ 1 ∧ s.analyzing = decide (s.outstanding = 1)) :
    (schedTick ts rand s).outstanding ≤ 1 ∧
      (schedTick ts rand s).analyzing = decide ((schedTick ts rand s).outstanding = 1) := by
  unfold schedTick
  by_cases hstop : s.app = .stopped
  · rw [if_pos hstop]
    exact h
  · rw [if_neg hstop]
    by_cases hcond : ((s.counter + 1) % analysisPeriod = 0 ∧ s.analyzing = false)
    · rw [if_pos hcond]
      have hout0 : s.outstanding = 0 := by
        rcases hcond with ⟨-, hfalse⟩
        by_contra hne
        have h1 : s.outstanding = 1 := by omega
        rw [h1, hfalse] at h
        simp at h
      simp [hout0]
    · rw [if_neg hcond]
      by_cases hana : s.analyzing = false
      · rw [if_pos hana]
        exact h
      · rw [if_neg hana]
        exact h

lemma schedResolveOk_inv (result : List RawDetection) (now : ℕ) (s : SchedState)
    (h : s.outstanding ≤ 1 ∧ s.analyzing = decide (s.outstanding = 1)) :
    (schedResolveOk result now s).outstanding ≤ 1 ∧
      (schedResolveOk result now s).analyzing
        = decide ((schedResolveOk result now s).outstanding = 1) := by
  unfold schedResolveOk
  by_cases h0 : s.outstanding = 0
  · rw [if_pos h0]
    exact h
  · rw [if_neg h0]
    have h1 : s.outstanding = 1 := by omega
    simp [h1]

lemma schedResolveFail_inv (s : SchedState)
    (h : s.outstanding ≤ 1 ∧ s.analyzing = decide (s.outstanding = 1)) :
    (schedResolveFail s).outstanding ≤ 1 ∧
      (schedResolveFail s).analyzing = decide ((schedResolveFail s).outstanding = 1) := by
  unfold schedResolveFail
  by_cases h0 : s.outstanding = 0
  · rw [if_pos h0]
    exact h
  · rw [if_neg h0]
    have h1 : s.outstanding = 1 := by omega
    simp [h1]

lemma runActions_inv (ts : ℕ) (acts : List SchedAction)
    (hacts : ∀ a ∈ acts, a.isRunEvent = true) (s : SchedState)
    (h : s.outstanding ≤ 1 ∧ s.analyzing = decide (s.outstanding = 1)) :
    (runActions ts acts s).outstanding ≤ 1 ∧
      (runActions ts acts s).analyzing = decide ((runActions ts acts s).outstanding = 1) := by
  induction acts generalizing s with
  | nil => exact h
  | cons a rest ih =>
    have ha := hacts a (List.mem_cons_self a rest)
    have hrest : ∀ b ∈ rest, b.isRunEvent = true :=
      fun b hb => hacts b (List.mem_cons_of_mem a hb)
    have hstep : (applyAction ts a s).outstanding ≤ 1 ∧
        (applyAction ts a s).analyzing = decide ((applyAction ts a s).outstanding = 1) := by
      cases a with
      | tick rand => exact schedTick_inv ts rand s h
      | resolveOk result now => exact schedResolveOk_inv result now s h
      | resolveFail => exact schedResolveFail_inv s h
      | stop => simp [SchedAction.isRunEvent] at ha
      | start => simp [SchedAction.isRunEvent] at ha
    exact ih hrest (applyAction ts a s) hstep

/-! ## Claim theorems -/

/-- **C3**: For every tick of the patrol engine, `stepIndex` increases
    strictly by 1 until it reaches the computed `totalSteps`; when
    `stepIndex ≥ totalSteps` the direction flips (forward↔backward),
    `stepIndex` resets to 0, the leg's start and end points swap, and the
    heading switches between 135° (forward) and `(135+180) % 360 = 315°`
    (backward) — a tick always emits the heading of the direction in force
    when it began, so the switched heading shows from the tick after the
    flip on.  `totalSteps` is the abstract positive step count of the leg
    (see `patrolStep`). -/
theorem c3_patrol_reversal (ts : ℕ) (rand rand' : ℚ) (s : PatrolState) (_hts : 0 < ts) :
    headingFor PatrolDir.forward = 135 ∧
    headingFor PatrolDir.backward = 315 ∧
    (patrolStep ts rand s).pos.heading = headingFor s.dir ∧
    (s.pos.stepIndex + 1 < ts →
      (patrolStep ts rand s).pos.stepIndex = s.pos.stepIndex + 1 ∧
      (patrolStep ts rand s).dir = s.dir) ∧
    (ts ≤ s.pos.stepIndex + 1 →
      (patrolStep ts rand s).dir = flipDir s.dir ∧
      (patrolStep ts rand s).pos.stepIndex = 0 ∧
      startPointFor (flipDir s.dir) = endPointFor s.dir ∧
      endPointFor (flipDir s.dir) = startPointFor s.dir ∧
      (patrolStep ts rand' (patrolStep ts rand s)).pos.heading = headingFor (flipDir s.dir)) := by
  refine ⟨rfl, headingFor_backward, patrolStep_heading ts rand s, ?_, ?_⟩
  · intro h
    constructor
    · rw [patrolStep_stepIndex, if_neg (by omega)]
    · rw [patrolStep_dir, if_neg (by omega)]
  · intro h
    have hdir : (patrolStep ts rand s).dir = flipDir s.dir := by
      rw [patrolStep_dir, if_pos h]
    refine ⟨hdir, ?_, ?_, ?_, ?_⟩
    · rw [patrolStep_stepIndex, if_pos h]
    · cases s.dir <;> rfl
    · cases s.dir <;> rfl
    · rw [patrolStep_heading, hdir]

/-- Witness for C3: with `totalSteps = 3` and `stepIndex = 2`, the next
    tick flips the direction, resets the step index, and the following
    tick emits the reversed heading 315°. -/
theorem c3_patrol_reversal_witness :
    0 < 3 ∧ 3 ≤ nearEndPatrol.pos.stepIndex + 1 ∧
    (patrolStep 3 0 nearEndPatrol).dir = PatrolDir.backward ∧
    (patrolStep 3 0 nearEndPatrol).pos.stepIndex = 0 ∧
    (patrolStep 3 0 (patrolStep 3 0 nearEndPatrol)).pos.heading = 315 := by
  have h := c3_patrol_reversal 3 0 0 nearEndPatrol (by norm_num)
  obtain ⟨h1, h2, h3, h4, h5⟩ := h
  have hf := h5 (by norm_num [nearEndPatrol])
  exact ⟨by norm_num, by norm_num [nearEndPatrol], hf.1, hf.2.1, hf.2.2.2.2.trans h2⟩

/-- **C8**: After every patrol step the produced position satisfies
    `lat ∈ [-90, 90]`, `lng ∈ (-180, 180]`, `heading ∈ [0, 360)` and
    `stepIndex ≥ 0` — proved for every previous position and direction
    whatsoever (so in particular for every reachable one), for every
    positive `totalSteps`. -/
theorem c8_position_ranges (ts : ℕ) (rand : ℚ) (s : PatrolState) (hts : 0 < ts) :
    (-90 ≤ (patrolStep ts rand s).pos.lat ∧ (patrolStep ts rand s).pos.lat ≤ 90) ∧
    (-180 < (patrolStep ts rand s).pos.lng ∧ (patrolStep ts rand s).pos.lng ≤ 180) ∧
    (0 ≤ (patrolStep ts rand s).pos.heading ∧ (patrolStep ts rand s).pos.heading < 360) ∧
    0 ≤ (patrolStep ts rand s).pos.stepIndex := by
  obtain ⟨hl1, hl2⟩ := patrolStep_lat_bounds ts rand s hts
  obtain ⟨hg1, hg2⟩ := patrolStep_lng_bounds ts rand s hts
  have hh := headingFor_bounds s.dir
  refine ⟨⟨by linarith, by linarith⟩, ⟨by linarith, by linarith⟩, ?_, Nat.zero_le _⟩
  rw [patrolStep_heading]
  exact hh

/-- Witness for C8: the ranges hold at `totalSteps = 10` for the very first
    step out of the initial state. -/
theorem c8_position_ranges_witness :
    0 < 10 ∧
    ((-90 ≤ (patrolStep 10 (1/2) initPatrol).pos.lat ∧
        (patrolStep 10 (1/2) initPatrol).pos.lat ≤ 90) ∧
      (-180 < (patrolStep 10 (1/2) initPatrol).pos.lng ∧
        (patrolStep 10 (1/2) initPatrol).pos.lng ≤ 180) ∧
      (0 ≤ (patrolStep 10 (1/2) initPatrol).pos.heading ∧
        (patrolStep 10 (1/2) initPatrol).pos.heading < 360) ∧
      0 ≤ (patrolStep 10 (1/2) initPatrol).pos.stepIndex) :=
  ⟨by norm_num, c8_position_ranges 10 (1/2) initPatrol (by norm_num)⟩

/-- **C7**: `getConfidenceLevel` maps `c < 0.75` to Low (`'Низкая'`),
    `0.75 ≤ c ≤ 0.90` to Medium (`'Средняя'`), `c > 0.90` to High
    (`'Высокая'`); in particular `0.75 → Medium`, `0.90 → Medium`,
    `0.901 → High` and `0.749 → Low`. -/
theorem c7_confidence_bucketing :
    (∀ c : ℚ, c < 3/4 → getConfidenceLevel c = "Низкая") ∧
    (∀ c : ℚ, 3/4 ≤ c → c ≤ 9/10 → getConfidenceLevel c = "Средняя") ∧
    (∀ c : ℚ, 9/10 < c → getConfidenceLevel c = "Высокая") ∧
    getConfidenceLevel (3/4) = "Средняя" ∧
    getConfidenceLevel (9/10) = "Средняя" ∧
    getConfidenceLevel (901/1000) = "Высокая" ∧
    getConfidenceLevel (749/1000) = "Низкая" := by
  refine ⟨?_, ?_, ?_, ?_, ?_, ?_, ?_⟩
  · intro c h
    simp only [getConfidenceLevel]
    rw [if_pos h]
  · intro c h1 h2
    simp only [getConfidenceLevel]
    rw [if_neg (by linarith), if_pos h2]
  · intro c h
    simp only [getConfidenceLevel]
    rw [if_neg (by linarith), if_neg (by linarith)]
  all_goals norm_num [getConfidenceLevel]

/-- Witness for C7: the three bucketing clauses at `0.5`, `0.8`, `0.95`. -/
theorem c7_confidence_bucketing_witness :
    ((1:ℚ)/2 < 3/4 ∧ getConfidenceLevel (1/2) = "Низкая") ∧
    ((3:ℚ)/4 ≤ 4/5 ∧ (4:ℚ)/5 ≤ 9/10 ∧ getConfidenceLevel (4/5) = "Средняя") ∧
    ((9:ℚ)/10 < 19/20 ∧ getConfidenceLevel (19/20) = "Высокая") :=
  ⟨⟨by norm_num, c7_confidence_bucketing.1 (1/2) (by norm_num)⟩,
   ⟨by norm_num, by norm_num, c7_confidence_bucketing.2.1 (4/5) (by norm_num) (by norm_num)⟩,
   ⟨by norm_num, c7_confidence_bucketing.2.2.1 (19/20) (by norm_num)⟩⟩

/-- **C6**: The filtered view contains exactly the detections that, for
    every non-empty facet of the query, have the corresponding attribute in
    that facet's set (AND across facets, OR within a facet; empty facets
    unconstrained); and on the two detections `dOil` (kind Oil, hazard
    High) and `dChem` (kind Chemical, hazard Low), the query
    `{kind:{Oil}}` returns only `dOil`, `{hazard:{Low}}` only `dChem`,
    and `{kind:{Oil}, hazard:{Low}}` neither. -/
theorem c6_filter_semantics :
    (∀ (f : Filters) (data : List PollutionData) (p : PollutionData),
        p ∈ filteredPollutionData f data ↔
          p ∈ data ∧
          (f.ftype = [] ∨ p.ptype ∈ f.ftype) ∧
          (f.hazardLevel = [] ∨ p.hazardLevel ∈ f.hazardLevel) ∧
          (f.impactArea = [] ∨ p.impactArea ∈ f.impactArea) ∧
          (f.confidence = [] ∨ getConfidenceLevel p.confidence ∈ f.confidence)) ∧
    filteredPollutionData ⟨["Нефтяное"], [], [], []⟩ [dOil, dChem] = [dOil] ∧
    filteredPollutionData ⟨[], ["Низкий"], [], []⟩ [dOil, dChem] = [dChem] ∧
    filteredPollutionData ⟨["Нефтяное"], ["Низкий"], [], []⟩ [dOil, dChem] = [] := by
  refine ⟨?_, ?_, ?_, ?_⟩
  · intro f data p
    rw [filteredPollutionData_eq_filter, List.mem_filter, passesFilters_iff]
  · simp [filteredPollutionData, passesFilters, dOil, dChem]
  · simp [filteredPollutionData, passesFilters, dOil, dChem]
  · simp [filteredPollutionData, passesFilters, dOil, dChem]

/-- **C10**: Toggling the same value in the same facet twice restores the
    facet as a set of values, and a single toggle leaves every other facet
    unchanged. -/
theorem c10_toggle_involution :
    (∀ (f : Filters) (c : FilterCategory) (v x : String),
        x ∈ facetOf (handleFilterChange (handleFilterChange f c v) c v) c ↔
          x ∈ facetOf f c) ∧
    (∀ (f : Filters) (c c' : FilterCategory) (v : String), c' ≠ c →
        facetOf (handleFilterChange f c v) c' = facetOf f c') := by
  constructor
  · intro f c v x
    cases c <;> simp [handleFilterChange, facetOf, toggleValue_twice_mem]
  · intro f c c' v h
    cases c <;> cases c' <;> simp_all [handleFilterChange, facetOf]

/-- Witness for C10: toggling in the type facet leaves the hazard facet of
    the empty filter state unchanged. -/
theorem c10_toggle_involution_witness :
    FilterCategory.hazardLevel ≠ FilterCategory.ftype ∧
    facetOf (handleFilterChange ⟨[], [], [], []⟩ FilterCategory.ftype "Нефтяное")
        FilterCategory.hazardLevel =
      facetOf (⟨[], [], [], []⟩ : Filters) FilterCategory.hazardLevel :=
  ⟨by decide,
   c10_toggle_involution.2 ⟨[], [], [], []⟩ .ftype .hazardLevel "Нефтяное" (by decide)⟩

/-- **C4**: If every attempt fails with a transient rate-limit error,
    `analyzeImage` calls the service exactly `MAX_RETRIES = 3` times, sleeps
    the exponentially growing delays `2^attempt · 60000 + jitter` (jitter in
    `[0, 5000)`) between attempts, and raises the lasting-rate-limit
    `Fatal`; a non-rate-limit failure raises `Fatal` immediately after a
    single call. -/
theorem c4_retry_bound :
    (∀ (svc : ℕ → SvcResult) (jitter : ℕ → ℚ),
      (∀ a, a < MAX_RETRIES → ∃ msg, svc a = .err msg ∧ isRateLimitMsg msg = true) →
      (∀ a, 0 ≤ jitter a ∧ jitter a < 5000) →
      (analyzeImage svc jitter).calls = MAX_RETRIES ∧
      (analyzeImage svc jitter).outcome = .fatal rateLimitFatalMsg ∧
      (analyzeImage svc jitter).delays = [60000 + jitter 0, 2 * 60000 + jitter 1] ∧
      (analyzeImage svc jitter).delays.Chain' (· < ·)) ∧
    (∀ (svc : ℕ → SvcResult) (jitter : ℕ → ℚ) (msg : String),
      svc 0 = .err msg → isRateLimitMsg msg = false →
      (analyzeImage svc jitter).calls = 1 ∧
      (analyzeImage svc jitter).outcome = .fatal genericFatalMsg) := by
  constructor
  · intro svc jitter hsvc hj
    obtain ⟨m0, h0, r0⟩ := hsvc 0 (by norm_num [MAX_RETRIES])
    obtain ⟨m1, h1, r1⟩ := hsvc 1 (by norm_num [MAX_RETRIES])
    obtain ⟨m2, h2, r2⟩ := hsvc 2 (by norm_num [MAX_RETRIES])
    have e0 := hj 0
    have e1 := hj 1
    refine ⟨?_, ?_, ?_, ?_⟩
    · simp [analyzeImage, analyzeGo, MAX_RETRIES, h0, h1, h2, r0, r1, r2]
    · simp [analyzeImage, analyzeGo, MAX_RETRIES, h0, h1, h2, r0, r1, r2]
    · simp [analyzeImage, analyzeGo, MAX_RETRIES, h0, h1, h2, r0, r1, r2]
    · simp [analyzeImage, analyzeGo, MAX_RETRIES, h0, h1, h2, r0, r1, r2]
      linarith
  · intro svc jitter msg h0 hr
    constructor <;> simp [analyzeImage, analyzeGo, MAX_RETRIES, h0, hr]

/-- Witness for C4: a service that always reports HTTP 429 is called three
    times and surfaces the lasting-rate-limit `Fatal`; a service that fails
    with an unrelated error is called once and surfaces the generic
    `Fatal`. -/
theorem c4_retry_bound_witness :
    (analyzeImage (fun _ => .err "429") (fun _ => 100)).calls = MAX_RETRIES ∧
    (analyzeImage (fun _ => .err "429") (fun _ => 100)).outcome = .fatal rateLimitFatalMsg ∧
    (analyzeImage (fun _ => .err "boom") (fun _ => 100)).calls = 1 ∧
    (analyzeImage (fun _ => .err "boom") (fun _ => 100)).outcome = .fatal genericFatalMsg := by
  have hA := c4_retry_bound.1 (fun _ => .err "429") (fun _ => 100)
    (fun a _ => ⟨"429", rfl, by decide⟩) (fun a => by norm_num)
  have hB := c4_retry_bound.2 (fun _ => .err "boom") (fun _ => 100) "boom" rfl (by decide)
  exact ⟨hA.1, hA.2.1, hB.1, hB.2⟩

/-- **C5 counterexample**: the claim "entries missing a valid boundary are
    dropped before the result list is handed to the caller, so no malformed
    entry ever reaches the DetectionStore" is false: a response consisting
    of the single entry `boundlessRaw` (no boundary at all) is handed to the
    caller unchanged, and the merge step puts it into the store with an
    empty coordinates list rather than dropping it. -/
theorem c5_malformed_reaches_store :
    (analyzeImage (fun _ => .ok (some [boundlessRaw])) (fun _ => 0)).outcome
      = .ok [boundlessRaw] ∧
    boundlessRaw.rgeometry = none ∧
    mergeDetections [] [boundlessRaw] 0 = [fillDetection 0 boundlessRaw] ∧
    (fillDetection 0 boundlessRaw).geometry.coordinates = [] := by
  refine ⟨?_, rfl, ?_, rfl⟩
  · simp [analyzeImage, analyzeGo, MAX_RETRIES]
  · simp [mergeDetections]

/-- **C5 amended**: no response entry is dropped: on a successful first
    attempt `analyzeImage` returns the parsed detection list unchanged; the
    merge step appends one store entry per response entry (defaulting
    missing fields), and an entry with no boundary reaches the store with
    an empty coordinates list. -/
theorem c5_no_entries_dropped :
    (∀ (svc : ℕ → SvcResult) (jitter : ℕ → ℚ) (l : List RawDetection),
      svc 0 = .ok (some l) → (analyzeImage svc jitter).outcome = .ok l) ∧
    (∀ (store : List PollutionData) (result : List RawDetection) (now : ℕ),
      (mergeDetections store result now).length = store.length + result.length) ∧
    (∀ (store : List PollutionData) (result : List RawDetection) (now : ℕ)
        (r : RawDetection), r ∈ result →
      fillDetection now r ∈ mergeDetections store result now) ∧
    (∀ (now : ℕ) (r : RawDetection), r.rgeometry = none →
      (fillDetection now r).geometry.coordinates = []) := by
  refine ⟨?_, ?_, ?_, ?_⟩
  · intro svc jitter l h
    simp [analyzeImage, analyzeGo, MAX_RETRIES, h]
  · intro store result now
    unfold mergeDetections
    split
    · simp
    · rename_i h
      have hnil : result = [] := by
        rcases result with _ | ⟨a, l⟩
        · rfl
        · simp at h
      subst hnil
      simp
  · intro store result now r hr
    unfold mergeDetections
    rw [if_pos (List.length_pos.mpr (List.ne_nil_of_mem hr))]
    exact List.mem_append_right _ (List.mem_map_of_mem _ hr)
  · intro now r h
    simp [fillDetection, h]

/-- Witness for C5 amended: a one-entry response is returned unchanged,
    merged as exactly one appended store entry, and the boundary-less entry
    `boundlessRaw` lands in the store with empty coordinates. -/
theorem c5_no_entries_dropped_witness :
    (analyzeImage (fun _ => .ok (some [rawOil])) (fun _ => 0)).outcome = .ok [rawOil] ∧
    (mergeDetections [] [rawOil] 3).length =
      ([] : List PollutionData).length + [rawOil].length ∧
    fillDetection 3 rawOil ∈ mergeDetections [] [rawOil] 3 ∧
    (fillDetection 4 boundlessRaw).geometry.coordinates = [] :=
  ⟨c5_no_entries_dropped.1 (fun _ => .ok (some [rawOil])) (fun _ => 0) [rawOil] rfl,
   c5_no_entries_dropped.2.1 [] [rawOil] 3,
   c5_no_entries_dropped.2.2.1 [] [rawOil] 3 rawOil (by simp),
   c5_no_entries_dropped.2.2.2 4 boundlessRaw rfl⟩

/-- **C9**: Every detection returned by `generateMockPollutionData` — for
    every satellite position and every outcome of its random draws (each in
    `[0,1)`) — has a boundary polygon consisting of a single ring that is
    closed (first point equals last point) with at least 4 points, and a
    confidence within `[0, 1]`. -/
theorem c9_mock_detections (piQ : ℚ) (cosF sinF : ℚ → ℚ) (pos : SatPos)
    (draws : ℕ → ℚ) (now : ℕ) (hd : ∀ n, 0 ≤ draws n ∧ draws n < 1) :
    ∀ d ∈ generateMockPollutionData piQ cosF sinF pos draws now,
      (∃ ring, d.geometry.coordinates = [ring] ∧ 4 ≤ ring.length ∧
        ring.head? = ring.getLast?) ∧
      0 ≤ d.confidence ∧ d.confidence ≤ 1 := by
  intro d hmem
  unfold generateMockPollutionData at hmem
  split at hmem
  · simp at hmem
  · exact genMockGo_wellformed piQ cosF sinF pos draws now hd _ _ d hmem

/-- Witness for C9: the draw stream `mockDraws` satisfies the range
    hypothesis, and the single detection it produces has a closed ring of
    at least 4 points and a confidence in `[0,1]`. -/
theorem c9_mock_detections_witness :
    (∀ n : ℕ, 0 ≤ mockDraws n ∧ mockDraws n < 1) ∧
    ((∃ ring, mockDet.geometry.coordinates = [ring] ∧ 4 ≤ ring.length ∧
        ring.head? = ring.getLast?) ∧
      0 ≤ mockDet.confidence ∧ mockDet.confidence ≤ 1) := by
  have hd : ∀ n : ℕ, 0 ≤ mockDraws n ∧ mockDraws n < 1 := by
    intro n
    unfold mockDraws
    split <;> norm_num
  have hmem : mockDet ∈ generateMockPollutionData 0 (fun _ => 0) (fun _ => 0)
      initPatrol.pos mockDraws 7 := by
    rw [generateMock_concrete]
    simp
  exact ⟨hd,
    c9_mock_detections 0 (fun _ => 0) (fun _ => 0) initPatrol.pos mockDraws 7 hd mockDet hmem⟩

/-- **C2 (amended)**: At most one classification call is in flight at every
    point of a scheduler run reachable by ticks and call resolutions alone —
    without an intervening `stop()`/`start()` (see `c2_stop_start_overlap`
    for why that restriction is forced: `stop()` clears the guard without
    cancelling the outstanding call); a tick while the in-flight guard is
    set starts no call and leaves the outstanding count unchanged; and
    180 consecutive ticks — which contain the two "should analyze" ticks
    90 and 180 — with the first call never resolving produce exactly one
    adapter call. -/
theorem c2_inflight_guard :
    (∀ (ts : ℕ) (rand : ℚ) (s : SchedState), s.analyzing = true →
      (schedTick ts rand s).calls = s.calls ∧
      (schedTick ts rand s).outstanding = s.outstanding) ∧
    (∀ (ts : ℕ) (acts : List SchedAction),
      (∀ a ∈ acts, a.isRunEvent = true) →
      (runActions ts acts (schedStart initSched)).outstanding ≤ 1) ∧
    (∀ (ts : ℕ) (rands : ℕ → ℚ),
      (tickIter ts rands (2 * analysisPeriod) (schedStart initSched)).calls = 1 ∧
      (tickIter ts rands (2 * analysisPeriod) (schedStart initSched)).outstanding = 1) := by
  refine ⟨?_, ?_, ?_⟩
  · intro ts rand s hana
    unfold schedTick
    by_cases hstop : s.app = .stopped
    · rw [if_pos hstop]
      exact ⟨rfl, rfl⟩
    · rw [if_neg hstop]
      have hcond : ¬ ((s.counter + 1) % analysisPeriod = 0 ∧ s.analyzing = false) := by
        rintro ⟨-, hfalse⟩
        rw [hana] at hfalse
        simp at hfalse
      have hana' : ¬ (s.analyzing = false) := by
        rw [hana]
        simp
      rw [if_neg hcond, if_neg hana']
      exact ⟨rfl, rfl⟩
  · intro ts acts hacts
    have hinit : (schedStart initSched).outstanding ≤ 1 ∧
        (schedStart initSched).analyzing = decide ((schedStart initSched).outstanding = 1) := by
      simp [schedStart, initSched]
    exact (runActions_inv ts acts hacts (schedStart initSched) hinit).1
  · intro ts rands
    obtain ⟨-, -, -, -, hout, hcal⟩ := tickIter_char ts rands (2 * analysisPeriod)
    constructor
    · rw [hcal]
      simp [analysisPeriod]
    · rw [hout]
      simp [analysisPeriod]

/-- Witness for C2: a guarded tick changes neither the call count nor the
    outstanding count, and a concrete two-event run keeps at most one call
    in flight. -/
theorem c2_inflight_guard_witness :
    analyzingSched.analyzing = true ∧
    (schedTick 1 0 analyzingSched).calls = analyzingSched.calls ∧
    (schedTick 1 0 analyzingSched).outstanding = analyzingSched.outstanding ∧
    (∀ a ∈ [SchedAction.tick 0, SchedAction.resolveFail], a.isRunEvent = true) ∧
    (runActions 1 [SchedAction.tick 0, SchedAction.resolveFail]
        (schedStart initSched)).outstanding ≤ 1 := by
  have h1 := c2_inflight_guard.1 1 0 analyzingSched rfl
  have h2 := c2_inflight_guard.2.1 1 [SchedAction.tick 0, SchedAction.resolveFail] (by decide)
  exact ⟨rfl, h1.1, h1.2, by decide, h2⟩

/-- **C2 counterexample**: the claim as frozen — at most one classification
    call in flight at *every* reachable point of the scheduler's execution —
    is false: `stopSimulation` clears the in-flight guard without cancelling
    the outstanding call and `startSimulation` resets the counter without
    touching the guard, so the concrete event sequence start; 90 ticks (the
    90th starts call A); stop; start; 90 ticks (the 90th starts call B while
    A is still unresolved) reaches a state with two calls outstanding. -/
theorem c2_stop_start_overlap :
    (tickIter 1 (fun _ => 0) analysisPeriod
        (schedStart (schedStop (tickIter 1 (fun _ => 0) analysisPeriod
          (schedStart initSched))))).outstanding = 2 ∧
    (tickIter 1 (fun _ => 0) analysisPeriod
        (schedStart (schedStop (tickIter 1 (fun _ => 0) analysisPeriod
          (schedStart initSched))))).calls = 2 ∧
    ¬ ((tickIter 1 (fun _ => 0) analysisPeriod
        (schedStart (schedStop (tickIter 1 (fun _ => 0) analysisPeriod
          (schedStart initSched))))).outstanding ≤ 1) := by
  obtain ⟨hc, hs, hap, han, hout, hcal⟩ := tickIter_char 1 (fun _ => 0) analysisPeriod
  set S := tickIter 1 (fun _ => 0) analysisPeriod (schedStart initSched) with hSdef
  set S2 := schedStart (schedStop S) with hS2def
  have h0 : S2.app ≠ .stopped := by
    simp [hS2def, schedStart]
  have hc0 : S2.counter = 0 := by
    simp [hS2def, schedStart]
  have ha0 : S2.analyzing = false := by
    simp [hS2def, schedStart, schedStop]
  have hout2 : S2.outstanding = 1 := by
    simp only [hS2def, schedStart, schedStop]
    rw [hout]
    simp
  have hcal2 : S2.calls = 1 := by
    simp only [hS2def, schedStart, schedStop]
    rw [hcal]
    simp
  obtain ⟨-, -, -, -, hO, hC⟩ := tickIter_char_from 1 (fun _ => 0) S2 h0 hc0 ha0 analysisPeriod
  refine ⟨?_, ?_, ?_⟩
  · rw [hO, hout2]
    simp
  · rw [hC, hcal2]
    simp
  · rw [hO, hout2]
    simp

/-- **C1 (code bug)**: the claim says a classification result arriving
    after `stop()` is discarded — store unchanged, state still `Stopped`.
    The code does the opposite: evaluating the scheduler at the failing
    interleaving (start; 90 ticks, the 90th starting a call; `stop()` with
    the call outstanding; the call then resolves with one detection), the
    state right after `stop()` is `Stopped` with one call outstanding, but
    when that call resolves the detection is appended to the store and the
    state is set to `Idle`, not kept `Stopped`. -/
theorem c1_stop_race (ts : ℕ) (rands : ℕ → ℚ) (now : ℕ) :
    (schedStop (tickIter ts rands analysisPeriod (schedStart initSched))).app
        = AppState.stopped ∧
    (schedStop (tickIter ts rands analysisPeriod (schedStart initSched))).outstanding = 1 ∧
    (schedStop (tickIter ts rands analysisPeriod (schedStart initSched))).store = [] ∧
    (schedResolveOk [rawOil] now
        (schedStop (tickIter ts rands analysisPeriod (schedStart initSched)))).app
        = AppState.idle ∧
    (schedResolveOk [rawOil] now
        (schedStop (tickIter ts rands analysisPeriod (schedStart initSched)))).store
        = [fillDetection now rawOil] := by
  obtain ⟨hc, hs, hap, han, hout, hcal⟩ := tickIter_char ts rands analysisPeriod
  set S := tickIter ts rands analysisPeriod (schedStart initSched) with hS
  have hout1 : S.outstanding = 1 := by
    rw [hout]
    simp
  refine ⟨?_, ?_, ?_, ?_, ?_⟩
  · simp [schedStop]
  · simp [schedStop, hout1]
  · simp [schedStop, hs]
  · simp [schedResolveOk, schedStop, hout1]
  · simp [schedResolveOk, schedStop, hout1, hs, mergeDetections]

end ArcticMonitor
